import Mathlib

/-!
# Verification of the `filesystem` package's in-memory backend (`BufferFS`)

Shallow embedding of the Go package `filesystem` (files `filesystem.go` and
the companion source file). The in-memory backend keeps a registry
`map[string]*BFile`; a `BFile` wraps a `*bytes.Buffer`. Since handles are
pointers into the registry (aliases, not copies), we model pointers as
natural-number record ids allocated from a heap: the registry maps paths to
ids, and a separate heap maps ids to buffer contents. Go errors (`error`
values built with `fmt.Errorf`) are modelled as `Option String`, `none`
standing for Go's `nil` error; `[]byte` is `List Nat`; a `nil` slice or
interface is `none` in an `Option`.
-/

set_option linter.unusedVariables false

namespace Filesystem

/-- Model of Go's `bytes.Buffer`: `data` is the backing bytes, `off` the read
offset. `Bytes()` returns the unread portion `data[off:]`; `Write` appends. -/
structure Buffer where
  data : List Nat
  off  : Nat

/-- `bytes.Buffer.Bytes()`: the unread portion of the buffer. -/
def Buffer.Bytes (b : Buffer) : List Nat := b.data.drop b.off

/-- `bytes.Buffer.Write(p)`: appends `p` to the buffer (the write side;
the returned `(len(p), nil)` is produced by `BFile.Write` below). -/
def Buffer.writeAppend (b : Buffer) (p : List Nat) : Buffer :=
  ⟨b.data ++ p, b.off⟩

/-- `bytes.NewBufferString(s)`: a buffer initialized with the bytes of `s`
and read offset `0`. -/
def NewBufferString (content : List Nat) : Buffer := ⟨content, 0⟩

/-- A `*BFile` pointer, modelled as a heap record id. -/
abbrev BFile := Nat

/-- The allocation store for `BFile` records: `bufs` gives each record's
`bytes.Buffer`, `next` is the next fresh id. -/
structure Heap where
  bufs : Nat → Buffer
  next : Nat

/-- `NewBFile(content)`: allocates a fresh `BFile` whose buffer is
`bytes.NewBufferString(content)`, returning the updated heap and the new id. -/
def NewBFile (h : Heap) (content : List Nat) : Heap × BFile :=
  (⟨fun i => if i = h.next then NewBufferString content else h.bufs i,
    h.next + 1⟩, h.next)

/-- `BufferFS`: the in-memory backend; `Bfs` is the registry
`map[string]*BFile` (a Go map, modelled extensionally). -/
structure BufferFS where
  Bfs : String → Option BFile

/-- `NewBufferFS()`: a backend with an empty registry. -/
def NewBufferFS : BufferFS := ⟨fun _ => none⟩

/-- `BufferFS.Open(name)`: looks `name` up in the registry; on a hit returns
the stored `*BFile` as the handle with a `nil` error, otherwise a `nil`
handle and the error `"Not found file "+name`. The first component is the
receiver's registry at return (the body never writes to the map). -/
def BufferFS.Open (b : BufferFS) (name : String) :
    BufferFS × Option BFile × Option String :=
  match b.Bfs name with
  | some f => (b, some f, none)
  | none => (b, none, some ("Not found file " ++ name))

/-- `BFile.Bytes()`: promoted `bytes.Buffer.Bytes` on the record's buffer. -/
def BFile.Bytes (h : Heap) (b : BFile) : List Nat := (h.bufs b).Bytes

/-- `BufferFS.ReadFile(name)`: looks `name` up; on a hit returns
`f.Bytes()` with a `nil` error, otherwise a `nil` slice and the error
`"File "+name+" doesn't exists"`. -/
def BufferFS.ReadFile (h : Heap) (b : BufferFS) (name : String) :
    Option (List Nat) × Option String :=
  match b.Bfs name with
  | some f => (some (BFile.Bytes h f), none)
  | none => (none, some ("File " ++ name ++ " doesn't exists"))

/-- `BufferFS.Create(name)`: stores `NewBFile("")` at `name` (overwriting any
previous entry) and returns the stored record as the handle, with a `nil`
error. Result: updated heap, updated registry, handle, error. -/
def BufferFS.Create (h : Heap) (b : BufferFS) (name : String) :
    Heap × BufferFS × BFile × Option String :=
  let hf := NewBFile h []
  (hf.1, ⟨fun k => if k = name then some hf.2 else b.Bfs k⟩, hf.2, none)

/-- `BufferFS.Rename(old, new)`: looks `old` up; on a hit deletes the entry
at `old` and stores the record at `new` (overwriting anything there),
returning a `nil` error; otherwise leaves the registry untouched and returns
the error `"File "+old+" doesn't exists"`. -/
def BufferFS.Rename (b : BufferFS) (old new : String) :
    BufferFS × Option String :=
  match b.Bfs old with
  | some f =>
      (⟨fun k => if k = new then some f else if k = old then none else b.Bfs k⟩,
       none)
  | none => (b, some ("File " ++ old ++ " doesn't exists"))

/-- Model of Go's `os.FileInfo` values (the interface's zero value, `nil`,
is `none` in `Option FileInfo`). -/
structure FileInfo where
  name : String
  size : Int

/-- `BufferFS.Stat(name)`: the body is empty, so both named results keep
their zero values: a `nil` `os.FileInfo` and a `nil` error. -/
def BufferFS.Stat (b : BufferFS) (name : String) :
    Option FileInfo × Option String :=
  (none, none)

/-- `BFile.Close()`: always returns the error `"Not implemented"`. -/
def BFile.Close (h : Heap) (b : BFile) : Option String :=
  some "Not implemented"

/-- `BFile.Stat()`: always returns a `nil` `os.FileInfo` and the error
`"Not implemented"`. -/
def BFile.Stat (h : Heap) (b : BFile) : Option FileInfo × Option String :=
  (none, some "Not implemented")

/-- `BFile.ReadAt(p, off)`: always returns `n = 0` and the error
`"Not implemented"`. -/
def BFile.ReadAt (h : Heap) (b : BFile) (p : List Nat) (off : Int) :
    Nat × Option String :=
  (0, some "Not implemented")

/-- `BFile.Seek(offset, whence)`: always returns `n = 0` and the error
`"Not implemented"`. -/
def BFile.Seek (h : Heap) (b : BFile) (offset : Int) (whence : Int) :
    Int × Option String :=
  (0, some "Not implemented")

/-- `BFile.Write(p)` (promoted `bytes.Buffer.Write`): appends `p` to the
record's buffer and returns `(len(p), nil)`. -/
def BFile.Write (h : Heap) (b : BFile) (p : List Nat) :
    Heap × Nat × Option String :=
  (⟨fun i => if i = b then (h.bufs i).writeAppend p else h.bufs i, h.next⟩,
   p.length, none)

/-- A concrete one-entry registry used in witnesses: path `"x"` maps to
record id `0`. -/
def fsX : BufferFS := ⟨fun k => if k = "x" then some 0 else none⟩

/-- C1: on the in-memory backend, for every heap, registry state, path `p`
and byte sequence `B`: `Create(p)` yields a handle, writing `B` through that
handle succeeds, and `ReadFile(p)` afterwards succeeds and returns exactly
`B`. -/
theorem create_write_readfile_roundtrip (h : Heap) (fs : BufferFS)
    (p : String) (B : List Nat) :
    BufferFS.ReadFile
      (BFile.Write (BufferFS.Create h fs p).1 (BufferFS.Create h fs p).2.2.1
        B).1
      (BufferFS.Create h fs p).2.1 p = (some B, none) := by
  simp [BufferFS.ReadFile, BufferFS.Create, NewBFile, NewBufferString,
    BFile.Write, BFile.Bytes, Buffer.Bytes, Buffer.writeAppend]

/-- C2: on the in-memory backend, `Stat(p)` returns the zero `os.FileInfo`
(a `nil` interface value, modelled `none`) and a `nil` error, for every
registry state and every path, existing or not. -/
theorem stat_always_empty_no_error (fs : BufferFS) (p : String) :
    fs.Stat p = (none, none) := rfl

/-- C3: on the in-memory backend, `Open(p)` fails with the `NotFound` error
(`"Not found file "+p`) exactly when no record exists at `p`; when a record
exists, the returned handle is the stored record itself (the very id kept in
the registry), with a `nil` error. -/
theorem open_notfound_iff_absent (fs : BufferFS) (p : String) :
    ((fs.Open p).2.2 = some ("Not found file " ++ p) ↔ fs.Bfs p = none)
    ∧ ∀ f, fs.Bfs p = some f → (fs.Open p).2 = (some f, none) := by
  cases hfs : fs.Bfs p <;> simp [BufferFS.Open, hfs]

/-- Witness for C3 at a concrete registry: `Open("x")` on `fsX` returns the
stored record id `0` and a `nil` error. -/
theorem open_notfound_iff_absent_witness :
    (fsX.Open "x").2 = (some 0, none) :=
  (open_notfound_iff_absent fsX "x").2 0 rfl

/-- C4 counterexample: the claim quantifies over every two paths `a`, `b`
with a record at `a`, which includes `a = b`. Take `a = b = "x"` on `fsX`
(which has a record at `"x"`): `Rename("x", "x")` succeeds, yet `Open("x")`
afterwards does not fail with `NotFound` — it succeeds, returning the
record. -/
theorem rename_same_path_open_succeeds :
    fsX.Bfs "x" = some 0
    ∧ (fsX.Rename "x" "x").2 = none
    ∧ ((fsX.Rename "x" "x").1.Open "x").2 = (some 0, none) := by
  refine ⟨rfl, ?_, ?_⟩ <;> rfl

/-- C4 (amended with `a ≠ b`): for every two distinct paths `a`, `b` with a
record at `a`: `Rename(a, b)` succeeds; afterwards `Open(a)` fails with
`NotFound`, and `Open(b)` returns the record previously at `a` with a `nil`
error; reading `b` on any heap returns that record's buffered content
(unchanged, since `Rename` never touches any buffer). -/
theorem rename_moves_record (fs : BufferFS) (a b : String) (f : BFile)
    (hab : a ≠ b) (ha : fs.Bfs a = some f) :
    (fs.Rename a b).2 = none
    ∧ ((fs.Rename a b).1.Open a).2 =
        (none, some ("Not found file " ++ a))
    ∧ ((fs.Rename a b).1.Open b).2 = (some f, none)
    ∧ ∀ h : Heap, BufferFS.ReadFile h (fs.Rename a b).1 b =
        (some (BFile.Bytes h f), none) := by
  refine ⟨?_, ?_, ?_, fun h => ?_⟩ <;>
    simp [BufferFS.Rename, BufferFS.Open, BufferFS.ReadFile, ha, hab]

/-- Witness for the amended C4 at concrete inputs: renaming `"x"` to `"y"`
on `fsX` succeeds, then `Open("x")` fails `NotFound` and `Open("y")` returns
record `0`. -/
theorem rename_moves_record_witness :
    (fsX.Rename "x" "y").2 = none
    ∧ ((fsX.Rename "x" "y").1.Open "x").2 =
        (none, some ("Not found file " ++ "x"))
    ∧ ((fsX.Rename "x" "y").1.Open "y").2 = (some 0, none)
    ∧ ∀ h : Heap, BufferFS.ReadFile h (fsX.Rename "x" "y").1 "y" =
        (some (BFile.Bytes h 0), none) :=
  rename_moves_record fsX "x" "y" 0 (by decide) rfl

/-- C5: on the in-memory backend, when no record exists at `a`,
`Rename(a, b)` fails with the `NotFound` error and returns the registry
literally unchanged — in particular no entry at `b` is created or
modified. -/
theorem rename_missing_notfound_noop (fs : BufferFS) (a b : String)
    (ha : fs.Bfs a = none) :
    fs.Rename a b = (fs, some ("File " ++ a ++ " doesn't exists")) := by
  simp [BufferFS.Rename, ha]

/-- Witness for C5 at concrete inputs: renaming on the empty registry. -/
theorem rename_missing_notfound_noop_witness :
    NewBufferFS.Rename "a" "b" =
      (NewBufferFS, some ("File " ++ "a" ++ " doesn't exists")) :=
  rename_missing_notfound_noop NewBufferFS "a" "b" rfl

/-- C6: on every in-memory handle, for every heap state and arguments, each
of `Close`, `Stat`, `ReadAt` and `Seek` returns the `"Not implemented"`
error. -/
theorem bfile_handle_ops_unimplemented (h : Heap) (b : BFile)
    (p : List Nat) (off : Int) (offset : Int) (whence : Int) :
    BFile.Close h b = some "Not implemented"
    ∧ BFile.Stat h b = (none, some "Not implemented")
    ∧ BFile.ReadAt h b p off = (0, some "Not implemented")
    ∧ BFile.Seek h b offset whence = (0, some "Not implemented") :=
  ⟨rfl, rfl, rfl, rfl⟩

/-- C7: on the in-memory backend, for every heap, prior registry state
(including a pre-existing record at `p`) and path `p`: `Create(p)` succeeds
(returns a `nil` error); `Open(p)` right after succeeds, returning exactly
the handle `Create` produced with a `nil` error; and that handle's content
under the post-`Create` heap is empty. -/
theorem create_then_open_empty (h : Heap) (fs : BufferFS) (p : String) :
    (BufferFS.Create h fs p).2.2.2 = none
    ∧ ((BufferFS.Create h fs p).2.1.Open p).2 =
        (some (BufferFS.Create h fs p).2.2.1, none)
    ∧ BFile.Bytes (BufferFS.Create h fs p).1
        (BufferFS.Create h fs p).2.2.1 = [] := by
  refine ⟨rfl, ?_, ?_⟩ <;>
    simp [BufferFS.Create, BufferFS.Open, NewBFile, NewBufferString,
      BFile.Bytes, Buffer.Bytes]

/-- C8: on the in-memory backend, `Open(p)` never modifies the registry:
for every registry state and paths `p`, `q`, the registry returned by
`Open(p)` maps `q` exactly as the registry before did, whether the call
succeeded or failed. -/
theorem open_preserves_registry (fs : BufferFS) (p q : String) :
    ((fs.Open p).1).Bfs q = fs.Bfs q := by
  cases hfs : fs.Bfs p <;> simp [BufferFS.Open, hfs]

/-- C9: a successful `Rename(a, b)` changes at most the entries at `a` and
`b`: every other path `q` maps to the same record id afterwards (hence the
same record, whose content is untouched — `Rename` never reads or writes
any heap buffer), so `ReadFile` at `q` is unchanged on every heap. -/
theorem rename_frame (fs : BufferFS) (a b q : String) (f : BFile)
    (ha : fs.Bfs a = some f) (hqa : q ≠ a) (hqb : q ≠ b) :
    ((fs.Rename a b).1).Bfs q = fs.Bfs q
    ∧ ∀ h : Heap, BufferFS.ReadFile h (fs.Rename a b).1 q =
        BufferFS.ReadFile h fs q := by
  have hreg : ((fs.Rename a b).1).Bfs q = fs.Bfs q := by
    simp [BufferFS.Rename, ha, hqa, hqb]
  exact ⟨hreg, fun h => by simp [BufferFS.ReadFile, hreg]⟩

/-- Witness for C9 at concrete inputs: renaming `"x"` to `"y"` on `fsX`
leaves the (absent) entry at `"z"` as it was. -/
theorem rename_frame_witness :
    ((fsX.Rename "x" "y").1).Bfs "z" = fsX.Bfs "z" :=
  (rename_frame fsX "x" "y" "z" 0 rfl (by decide) (by decide)).1

/-- C10: on the in-memory backend, when a record exists at `p`,
`Rename(p, p)` succeeds and is the identity on the registry: every path maps
to the same record id afterwards; in particular `p` still maps to the same
record, whose content the delete-then-insert order never touched. -/
theorem rename_self_identity (fs : BufferFS) (p : String) (f : BFile)
    (hp : fs.Bfs p = some f) :
    (fs.Rename p p).2 = none
    ∧ ∀ q, ((fs.Rename p p).1).Bfs q = fs.Bfs q := by
  refine ⟨by simp [BufferFS.Rename, hp], fun q => ?_⟩
  by_cases hq : q = p
  · subst hq; simp [BufferFS.Rename, hp]
  · simp [BufferFS.Rename, hp, hq]

/-- Witness for C10 at concrete inputs: `Rename("x", "x")` on `fsX` succeeds
and `"x"` still maps to record `0`. -/
theorem rename_self_identity_witness :
    (fsX.Rename "x" "x").2 = none
    ∧ ((fsX.Rename "x" "x").1).Bfs "x" = some 0 :=
  ⟨(rename_self_identity fsX "x" 0 rfl).1,
   ((rename_self_identity fsX "x" 0 rfl).2 "x").trans rfl⟩

end Filesystem
